import Mathlib

/-!
Shallow embedding of `src/games/UNO/packages/unoenty/src/hooks/useSocket.tsx`:
the client-side optimistic reconciliation layer of a multiplayer UNO game.

JavaScript values that may be `undefined` are modelled with `Option`;
machine `number` indexes are modelled with `Int` (a JS `findIndex` may
return `-1`, and array indexing with a negative or out-of-range index
yields `undefined`).  Each action dispatcher and event handler is modelled
as a function producing a trace of `Action`s (transport emissions, store
mutations, awaited suspension points, callback invocations) so that
ordering claims are statements about trace order, and state claims are
statements about folding traces over a store.
-/

/-- A card; `id` is its identity within hands and the discard pile, the
other attributes are opaque to this layer (modelled by one opaque field). -/
structure CardData where
  id : String
  color : Option String
  deriving DecidableEq, Repr

/-- A seated player as the store holds it. -/
structure PlayerData where
  id : String
  ready : Bool
  status : String
  handCards : List CardData
  deriving DecidableEq, Repr

/-- A game object.  Every field is `Option` because the TypeScript code
spreads possibly-`undefined` games (`{ ...socketStore?.game }` yields an
empty object, all fields `undefined`, when no game is loaded). -/
structure Game where
  status : Option String
  currentPlayerIndex : Option Int
  players : Option (List PlayerData)
  usedCards : Option (List CardData)
  deriving DecidableEq, Repr

/-- The game with every field `undefined`, i.e. the result of spreading an
absent game. -/
def emptyGame : Game :=
  { status := none, currentPlayerIndex := none, players := none, usedCards := none }

/-- Modelled from the spec: the State Store collaborator (not under the
hook's source) holds the current game, the local player and the chats;
chat contents are modelled as message lists keyed by chat id. -/
structure Store where
  game : Option Game
  player : Option PlayerData
  chats : List (String × List String)
  deriving DecidableEq, Repr

/-- Requests emitted through the transport gateway. -/
inductive SocketEmit where
  | joinGame (gameId : String)
  | toggleReady (gameId : String)
  | buyCard (gameId : String)
  | putCard (gameId : String) (cardIds : List String) (selectedColor : String)
  | changePlayerStatus (gameId : String) (playerStatus : String)
  | sendChatMessage (chatId : String) (message : String)
  | forceSelfDisconnect (gameId : String)
  deriving DecidableEq, Repr

/-- One observable step of a dispatcher or event handler. -/
inductive Act where
  | emit (e : SocketEmit)
  | awaitResponse
  | setGameData (g : Game)
  | setPlayerData (p : PlayerData)
  | addChatMessage (chatId : String) (message : String)
  | callback
  deriving DecidableEq, Repr

/-- Outcome of an awaited transport request. -/
inductive EmitResponse where
  | resolved
  | rejected (err : String)
  deriving DecidableEq, Repr

/-- JS `Array.prototype.findIndex`: index of the first match, `-1` if none. -/
def jsFindIndex (l : List PlayerData) (pred : PlayerData → Bool) : Int :=
  match l.findIdx? pred with
  | some i => (i : Int)
  | none => -1

/-- JS `Array.prototype.slice(start, stop)`: both bounds clamped to
`[0, length]`, negative bounds counted from the end. -/
def jsSlice {α : Type} (l : List α) (start stop : Int) : List α :=
  let len : Int := l.length
  let s := if start < 0 then max (len + start) 0 else min start len
  let e := if stop < 0 then max (len + stop) 0 else min stop len
  (l.take e.toNat).drop s.toNat

/-- JS indexing `arr?.[i]` where both the array and the index may be
`undefined` and a negative or out-of-range index yields `undefined`. -/
def jsGetElem {α : Type} (l : Option (List α)) (i : Option Int) : Option α :=
  match l, i with
  | some xs, some n => if n < 0 then none else xs[n.toNat]?
  | _, _ => none

/-- JS `players?.find(player => player.id === playerId)` where the list and
the sought id may each be `undefined` (no string id equals `undefined`). -/
def jsFind (players : Option (List PlayerData)) (playerId : Option String) : Option PlayerData :=
  match players with
  | none => none
  | some ps => ps.find? (fun p => some p.id == playerId)

/-- Source `getWinner` (useSocket.tsx lines 59-74): falls back to the store
game, returns null unless the status is literally "ended", then returns
`players?.[currentPlayerIndex]`. -/
def getWinner (game : Option Game) (storeGame : Option Game) : Option PlayerData :=
  let gameFallback := match game with
    | some g => some g
    | none => storeGame
  if (Option.bind gameFallback Game.status) ≠ some "ended" then
    none
  else
    jsGetElem (Option.bind gameFallback Game.players) (Option.bind gameFallback Game.currentPlayerIndex)

/-- Source `getOtherPlayers`, rotation step (useSocket.tsx lines 86-107):
find the local player's index (replacing a `-1` by the player count), then
concatenate the slice after it with the slice before it. -/
def getOtherPlayersPrePad (players : List PlayerData) (playerId : Option String) : List PlayerData :=
  let totalPlayers : Int := players.length
  let idx := jsFindIndex players (fun p => some p.id == playerId)
  let currentPlayerIndex := if idx == -1 then totalPlayers else idx
  let otherPlayersBeforeCurrentPlayer := jsSlice players 0 currentPlayerIndex
  let otherPlayersAfterCurrentPlayer := jsSlice players (currentPlayerIndex + 1) players.length
  otherPlayersAfterCurrentPlayer ++ otherPlayersBeforeCurrentPlayer

/-- Source `getOtherPlayers`, padding step (useSocket.tsx lines 109-125):
for at most 4 seats the rotated list is spread over the fixed 7-slot layout
pattern.  `none` stands both for the `{}` placeholder written at the odd
indices and for the `undefined` read past the end of the rotated list. -/
def getOtherPlayers (players : List PlayerData) (playerId : Option String) : List (Option PlayerData) :=
  let otherPlayers := getOtherPlayersPrePad players playerId
  if players.length ≤ 4 then
    [otherPlayers[0]?, none, otherPlayers[1]?, none, otherPlayers[2]?, none, otherPlayers[3]?]
  else
    otherPlayers.map some

/-- Source `getOtherPlayers` over the store: with no loaded game (or no
players field) every optional chain yields `undefined`, both spreads
default to `[]`, and the padding branch is not taken because
`undefined <= 4` is false, so the result is the empty list. -/
def getOtherPlayersOfStore (store : Store) : List (Option PlayerData) :=
  match Option.bind store.game Game.players with
  | none => []
  | some players => getOtherPlayers players (Option.map PlayerData.id store.player)

/-- Source `toggleReady`, store-mutation step (useSocket.tsx lines 142-153):
spread the (possibly absent) game, then map over its (possibly absent)
players flipping the ready flag of each player whose id is the local id. -/
def toggleReadyGame (game : Option Game) (playerId : Option String) : Game :=
  let lastState := Option.getD game emptyGame
  { lastState with
    players := some ((Option.getD lastState.players []).map (fun player =>
      if some player.id == playerId then
        { player with ready := !player.ready }
      else
        player)) }

/-- Source `toggleReady` (useSocket.tsx lines 139-156): emit the request
fire-and-forget, then synchronously write the optimistically flipped game. -/
def toggleReady (store : Store) (gameId : String) : List Act :=
  [Act.emit (SocketEmit.toggleReady gameId),
   Act.setGameData (toggleReadyGame store.game (Option.map PlayerData.id store.player))]

/-- Source `putCard`, collection of the cards to move (useSocket.tsx lines
178-186): for each requested id, the first hand card with that id, ids with
no matching hand card contributing nothing. -/
def putCardMovedCards (cardIds : List String) (handCards : List CardData) : List CardData :=
  cardIds.filterMap (fun cardId => handCards.find? (fun card => card.id == cardId))

/-- Source `putCard`, store-mutation step (useSocket.tsx lines 188-205):
spread the game, filter every requested id out of the local player's hand,
and prepend the collected cards to the discard pile (the source casts
`usedCards` to an array, modelled by defaulting an absent pile to `[]`). -/
def putCardGame (game : Game) (playerId : Option String) (cardIds : List String)
    (cards : List CardData) : Game :=
  { game with
    players := Option.map (fun ps => ps.map (fun player =>
      if some player.id == playerId then
        { player with
          handCards := player.handCards.filter (fun handCard => !(cardIds.contains handCard.id)) }
      else
        player)) game.players,
    usedCards := some (cards ++ Option.getD game.usedCards []) }

/-- Source `putCard` (useSocket.tsx lines 162-206): emit the request, then,
only when the local player is found among the game's players, apply the
optimistic hand/discard update. -/
def putCard (store : Store) (gameId : String) (cardIds : List String)
    (selectedColor : String) : List Act :=
  let emitAct := Act.emit (SocketEmit.putCard gameId cardIds selectedColor)
  let playerId := Option.map PlayerData.id store.player
  match jsFind (Option.bind store.game Game.players) playerId with
  | none => [emitAct]
  | some player =>
      let cards := putCardMovedCards cardIds player.handCards
      [emitAct,
       Act.setGameData (putCardGame (Option.getD store.game emptyGame) playerId cardIds cards)]

/-- Source `toggleOnlineStatus`, store-mutation step (useSocket.tsx lines
214-222): spread the game and set the local player's status to "online". -/
def toggleOnlineStatusGame (game : Option Game) (playerId : Option String) : Game :=
  let lastState := Option.getD game emptyGame
  { lastState with
    players := some ((Option.getD lastState.players []).map (fun player =>
      if some player.id == playerId then
        { player with status := "online" }
      else
        player)) }

/-- Source `toggleOnlineStatus` (useSocket.tsx lines 208-225): emit
"ChangePlayerStatus" and await it; the store mutation runs only after the
response resolves, and a rejection propagates with the store untouched. -/
def toggleOnlineStatus (store : Store) (gameId : String) (resp : EmitResponse) :
    List Act × Option String :=
  let emitAct := Act.emit (SocketEmit.changePlayerStatus gameId "online")
  match resp with
  | EmitResponse.rejected err => ([emitAct, Act.awaitResponse], some err)
  | EmitResponse.resolved =>
      ([emitAct, Act.awaitResponse,
        Act.setGameData (toggleOnlineStatusGame store.game (Option.map PlayerData.id store.player))],
       none)

/-- Source "GameStarted" handler (useSocket.tsx lines 234-240): replace the
store game wholesale, then invoke the caller's callback. -/
def onGameStartHandler (game : Game) : List Act :=
  [Act.setGameData game, Act.callback]

/-- Source "NewMessage" handler (useSocket.tsx lines 242-250): append the
message to the chat, then invoke the optional caller callback. -/
def onNewChatMessageHandler (hasCallback : Bool) (chatId message : String) : List Act :=
  Act.addChatMessage chatId message :: (if hasCallback then [Act.callback] else [])

/-- Source "reconnect" handler (useSocket.tsx lines 284-292): await
`getPlayerData`, write its result to the store, then invoke the callback. -/
def onReconnectHandler (playerData : PlayerData) : List Act :=
  [Act.awaitResponse, Act.setPlayerData playerData, Act.callback]

/-- Modelled from the spec: the Store collaborator's `addChatMessage`
setter (not under the hook's source) appends a message to the chat with
the given id, creating the chat entry when absent. -/
def addChatMessageTo (chats : List (String × List String)) (chatId message : String) :
    List (String × List String) :=
  match chats with
  | [] => [(chatId, [message])]
  | e :: rest =>
      if e.fst == chatId then
        (e.fst, e.snd ++ [message]) :: rest
      else
        e :: addChatMessageTo rest chatId message

/-- Point lookup in the store's chat mapping. -/
def chatLookup (chats : List (String × List String)) (chatId : String) : Option (List String) :=
  Option.map Prod.snd (chats.find? (fun e => e.fst == chatId))

/-- Modelled from the spec: applying one observable step to the Store
collaborator; `setGameData`, `setPlayerData` are whole-object replaces,
emissions, suspensions and callbacks leave the store untouched. -/
def Store.applyAct (store : Store) (a : Act) : Store :=
  match a with
  | Act.setGameData g => { store with game := some g }
  | Act.setPlayerData p => { store with player := some p }
  | Act.addChatMessage chatId message =>
      { store with chats := addChatMessageTo store.chats chatId message }
  | _ => store

/-- The store reached by running a trace of steps. -/
def runTrace (store : Store) (tr : List Act) : Store :=
  tr.foldl Store.applyAct store

/-- Sample seated player with an empty hand, used by concrete instances. -/
def mkSeat (pid : String) : PlayerData :=
  { id := pid, ready := false, status := "online", handCards := [] }

/-- Sample four-seat table in seating order. -/
def sampleSeats4 : List PlayerData :=
  [mkSeat "A", mkSeat "B", mkSeat "C", mkSeat "D"]

/-- Sample five-seat table in seating order. -/
def sampleSeats5 : List PlayerData :=
  [mkSeat "A", mkSeat "B", mkSeat "C", mkSeat "D", mkSeat "E"]

/-- Sample card used by concrete instances. -/
def sampleCard : CardData :=
  { id := "c1", color := some "red" }

/-- Sample local player holding the sample card. -/
def sampleLocal : PlayerData :=
  { id := "p2", ready := false, status := "online", handCards := [sampleCard] }

/-- Sample running game: two seats, the local player is the second. -/
def sampleGame : Game :=
  { status := some "started"
    currentPlayerIndex := some 1
    players := some [mkSeat "p1", sampleLocal]
    usedCards := some [] }

/-- Sample store holding the sample game and the sample local player. -/
def sampleStore : Store :=
  { game := some sampleGame, player := some sampleLocal, chats := [("chat1", ["hello"])] }

/-- Slicing with in-range natural bounds is take-then-drop. -/
theorem jsSlice_coe_nat {α : Type} (l : List α) (a b : Nat) :
    jsSlice l (a : Int) (b : Int) = (l.take b).drop a := by
  have ha : ¬((a : Int) < 0) := by omega
  have hb : ¬((b : Int) < 0) := by omega
  simp only [jsSlice, if_neg ha, if_neg hb]
  have hsa : (min (a : Int) ((l.length : Nat) : Int)).toNat = min a l.length := by omega
  have hsb : (min (b : Int) ((l.length : Nat) : Int)).toNat = min b l.length := by omega
  rw [hsa, hsb]
  have htake : l.take (min b l.length) = l.take b := by
    rcases Nat.le_total b l.length with h | h
    · rw [Nat.min_eq_left h]
    · rw [Nat.min_eq_right h, List.take_length, List.take_of_length_le h]
  rw [htake]
  rcases Nat.le_total a l.length with h | h
  · rw [Nat.min_eq_left h]
  · rw [Nat.min_eq_right h]
    have hlen : (l.take b).length ≤ l.length := by
      rw [List.length_take]
      exact Nat.min_le_right _ _
    rw [List.drop_eq_nil_iff.mpr hlen, List.drop_eq_nil_iff.mpr (Nat.le_trans hlen h)]

/-- When the local player is found at index `i`, the rotation is the suffix
after `i` followed by the prefix before `i`. -/
theorem getOtherPlayersPrePad_found (players : List PlayerData) (pid : Option String) (i : Nat)
    (h : players.findIdx? (fun p => some p.id == pid) = some i) :
    getOtherPlayersPrePad players pid = players.drop (i + 1) ++ players.take i := by
  have hidx : jsFindIndex players (fun p => some p.id == pid) = (i : Int) := by
    simp [jsFindIndex, h]
  have hcond : ¬ ((((i : Int)) == -1) = true) := by
    simp only [beq_iff_eq]
    omega
  simp only [getOtherPlayersPrePad, hidx, if_neg hcond]
  have h1 : ((i : Int) + 1) = ((i + 1 : Nat) : Int) := by omega
  have h0 : (0 : Int) = ((0 : Nat) : Int) := by omega
  rw [h1, h0, jsSlice_coe_nat, jsSlice_coe_nat, List.take_length, List.drop_zero]

/-- When the local player is not found, the rotation is the full list. -/
theorem getOtherPlayersPrePad_not_found (players : List PlayerData) (pid : Option String)
    (h : players.findIdx? (fun p => some p.id == pid) = none) :
    getOtherPlayersPrePad players pid = players := by
  have hidx : jsFindIndex players (fun p => some p.id == pid) = -1 := by
    simp [jsFindIndex, h]
  simp only [getOtherPlayersPrePad, hidx, if_pos (by decide : (((-1 : Int)) == -1) = true)]
  have h1 : ((players.length : Int)) + 1 = ((players.length + 1 : Nat) : Int) := by omega
  have h0 : (0 : Int) = ((0 : Nat) : Int) := by omega
  rw [h1, h0, jsSlice_coe_nat, jsSlice_coe_nat, List.take_length, List.drop_zero,
    List.drop_eq_nil_iff.mpr (by omega : players.length ≤ players.length + 1), List.nil_append]

/-- C2: for every players list and local player id, the pre-padding result
of otherPlayers is the sublist after the local player's index followed by
the sublist before it — it excludes exactly the local seat and preserves
seating order rotated to start right after it — and when the id is not
found the index is treated as the length, so the result is the full list. -/
theorem c2_otherPlayers_rotation (players : List PlayerData) (pid : String) :
    (∀ i, players.findIdx? (fun p => some p.id == some pid) = some i →
      getOtherPlayersPrePad players (some pid) = players.drop (i + 1) ++ players.take i ∧
      ∃ self, players[i]? = some self ∧ self.id = pid ∧
        players = players.take i ++ self :: players.drop (i + 1)) ∧
    (players.findIdx? (fun p => some p.id == some pid) = none →
      getOtherPlayersPrePad players (some pid) = players) := by
  constructor
  · intro i hfind
    refine ⟨getOtherPlayersPrePad_found players (some pid) i hfind, ?_⟩
    rcases List.findIdx?_eq_some_iff_getElem.mp hfind with ⟨hlt, hpred, -⟩
    refine ⟨players[i], List.getElem?_eq_getElem hlt, ?_, ?_⟩
    · simpa using hpred
    · conv_lhs => rw [← List.take_append_drop i players]
      rw [List.drop_eq_getElem_cons hlt]
  · intro hfind
    exact getOtherPlayersPrePad_not_found players (some pid) hfind

/-- Witness for C2: four seats with local player "B" rotate to the seats
after "B" then those before it, and an unknown id leaves the list whole. -/
theorem c2_otherPlayers_rotation_witness :
    (getOtherPlayersPrePad sampleSeats4 (some "B")
        = sampleSeats4.drop 2 ++ sampleSeats4.take 1 ∧
      ∃ self, sampleSeats4[1]? = some self ∧ self.id = "B" ∧
        sampleSeats4 = sampleSeats4.take 1 ++ self :: sampleSeats4.drop 2) ∧
    getOtherPlayersPrePad sampleSeats4 (some "Z") = sampleSeats4 :=
  ⟨(c2_otherPlayers_rotation sampleSeats4 "B").1 1 (by decide),
   (c2_otherPlayers_rotation sampleSeats4 "Z").2 (by decide)⟩

/-- C3: for player count at most 4 the padded layout has exactly 7
positions, rotated opponents at the even indices in rotation order with a
placeholder produced (not omitted) when a slot is absent, placeholders at
the odd indices; for more than 4 players no padding is applied and the
result is the raw rotation, of length count minus one when seated. -/
theorem c3_padding (players : List PlayerData) (pid : String) :
    (players.length ≤ 4 →
      (getOtherPlayers players (some pid)).length = 7 ∧
      (∀ j : Nat, j ≤ 3 →
        (getOtherPlayers players (some pid))[2 * j]?
          = some ((getOtherPlayersPrePad players (some pid))[j]?)) ∧
      (getOtherPlayers players (some pid))[1]? = some none ∧
      (getOtherPlayers players (some pid))[3]? = some none ∧
      (getOtherPlayers players (some pid))[5]? = some none) ∧
    (∀ i, players.findIdx? (fun p => some p.id == some pid) = some i →
      4 < players.length →
      getOtherPlayers players (some pid)
        = (getOtherPlayersPrePad players (some pid)).map some ∧
      (getOtherPlayers players (some pid)).length = players.length - 1) := by
  constructor
  · intro hle
    have hunf : getOtherPlayers players (some pid)
        = [(getOtherPlayersPrePad players (some pid))[0]?, none,
           (getOtherPlayersPrePad players (some pid))[1]?, none,
           (getOtherPlayersPrePad players (some pid))[2]?, none,
           (getOtherPlayersPrePad players (some pid))[3]?] := by
      simp only [getOtherPlayers, if_pos hle]
    refine ⟨by rw [hunf]; rfl, ?_, by rw [hunf]; rfl, by rw [hunf]; rfl, by rw [hunf]; rfl⟩
    intro j hj
    interval_cases j <;> rw [hunf] <;> rfl
  · intro i hfind hgt
    have hunf : getOtherPlayers players (some pid)
        = (getOtherPlayersPrePad players (some pid)).map some := by
      simp only [getOtherPlayers, if_neg (by omega : ¬ players.length ≤ 4)]
    refine ⟨hunf, ?_⟩
    have hlt : i < players.length := by
      rcases List.findIdx?_eq_some_iff_getElem.mp hfind with ⟨hlt, -, -⟩
      exact hlt
    rw [hunf, List.length_map, getOtherPlayersPrePad_found players (some pid) i hfind,
      List.length_append, List.length_drop, List.length_take]
    omega

/-- Witness for C3: the four-seat table pads to 7 slots with a placeholder
at slot 4 and at the odd slots, and the five-seat table is not padded. -/
theorem c3_padding_witness :
    (getOtherPlayers sampleSeats4 (some "B")).length = 7 ∧
    (getOtherPlayers sampleSeats4 (some "B"))[2 * 2]?
      = some ((getOtherPlayersPrePad sampleSeats4 (some "B"))[2]?) ∧
    (getOtherPlayers sampleSeats4 (some "B"))[5]? = some none ∧
    getOtherPlayers sampleSeats5 (some "B")
      = (getOtherPlayersPrePad sampleSeats5 (some "B")).map some ∧
    (getOtherPlayers sampleSeats5 (some "B")).length = sampleSeats5.length - 1 :=
  ⟨((c3_padding sampleSeats4 "B").1 (by decide)).1,
   ((c3_padding sampleSeats4 "B").1 (by decide)).2.1 2 (by decide),
   ((c3_padding sampleSeats4 "B").1 (by decide)).2.2.2.2,
   ((c3_padding sampleSeats5 "B").2 1 (by decide) (by decide)).1,
   ((c3_padding sampleSeats5 "B").2 1 (by decide) (by decide)).2⟩

/-- C5: getWinner returns null whenever the game's status is not "ended",
and when the status is "ended" and currentPlayerIndex is a valid index into
the players it returns the player at that index. -/
theorem c5_winner (g : Game) (storeGame : Option Game) :
    (g.status ≠ some "ended" → getWinner (some g) storeGame = none) ∧
    (∀ (i : Int) (ps : List PlayerData),
      g.status = some "ended" → g.currentPlayerIndex = some i → g.players = some ps →
      0 ≤ i → i.toNat < ps.length →
      getWinner (some g) storeGame = ps[i.toNat]? ∧ (ps[i.toNat]?).isSome = true) := by
  have hunf : getWinner (some g) storeGame
      = if g.status ≠ some "ended" then none
        else jsGetElem g.players g.currentPlayerIndex := rfl
  constructor
  · intro hstat
    rw [hunf, if_pos hstat]
  · intro i ps hstat hcpi hps hnn hlt
    constructor
    · rw [hunf, if_neg (by simp [hstat] : ¬ (g.status ≠ some "ended")), hps, hcpi]
      simp only [jsGetElem]
      rw [if_neg (by omega : ¬ i < 0)]
    · rw [List.getElem?_eq_getElem hlt]
      rfl

/-- Witness for C5 at the sample game: not ended gives no winner; ended with
current player index 1 gives the second seat. -/
theorem c5_winner_witness :
    getWinner (some sampleGame) none = none ∧
    (getWinner (some { sampleGame with status := some "ended" }) none
        = [mkSeat "p1", sampleLocal][(1 : Int).toNat]? ∧
      ([mkSeat "p1", sampleLocal][(1 : Int).toNat]?).isSome = true) :=
  ⟨(c5_winner sampleGame none).1 (by decide),
   (c5_winner { sampleGame with status := some "ended" } none).2 1 [mkSeat "p1", sampleLocal]
     rfl rfl rfl (by decide) (by decide)⟩

/-- Membership in the collected moved cards: they are exactly the hand
cards whose id occurs among the requested ids, when hand ids are unique. -/
theorem putCardMovedCards_mem (cardIds : List String) (hand : List CardData)
    (hnodup : (hand.map CardData.id).Nodup) (c : CardData) :
    c ∈ putCardMovedCards cardIds hand ↔ c ∈ hand ∧ c.id ∈ cardIds := by
  unfold putCardMovedCards
  rw [List.mem_filterMap]
  constructor
  · rintro ⟨cid, hcid, hfind⟩
    have hc : c ∈ hand := List.mem_of_find?_eq_some hfind
    have hid := List.find?_some hfind
    refine ⟨hc, ?_⟩
    rw [show c.id = cid from by simpa using hid]
    exact hcid
  · rintro ⟨hc, hid⟩
    refine ⟨c.id, hid, ?_⟩
    have hsome : (hand.find? (fun card => card.id == c.id)).isSome := by
      rw [List.find?_isSome]
      exact ⟨c, hc, by simp⟩
    rcases Option.isSome_iff_exists.mp hsome with ⟨b, hb⟩
    have hbmem : b ∈ hand := List.mem_of_find?_eq_some hb
    have hbid : b.id = c.id := by simpa using List.find?_some hb
    have hbc : b = c := List.inj_on_of_nodup_map hnodup hbmem hc hbid
    rw [hbc] at hb
    exact hb

/-- The ids of the moved cards are the requested ids that match some hand
card, kept in request order. -/
theorem putCardMovedCards_map_id (cardIds : List String) (hand : List CardData) :
    (putCardMovedCards cardIds hand).map CardData.id
      = cardIds.filter (fun cid => hand.any (fun card => card.id == cid)) := by
  simp only [putCardMovedCards]
  induction cardIds with
  | nil => rfl
  | cons cid rest ih =>
    rw [List.filterMap_cons]
    cases hfind : hand.find? (fun card => card.id == cid) with
    | none =>
      have hany : hand.any (fun card => card.id == cid) = false := by
        rw [List.any_eq_false]
        intro x hx
        have := List.find?_eq_none.mp hfind x hx
        simpa using this
      rw [List.filter_cons, hany]
      simpa using ih
    | some c =>
      have hcid : c.id = cid := by simpa using List.find?_some hfind
      have hany : hand.any (fun card => card.id == cid) = true :=
        List.any_eq_true.mpr ⟨c, List.mem_of_find?_eq_some hfind, by simp [hcid]⟩
      rw [List.filter_cons, hany]
      simpa [hcid] using ih

/-- C1: with the local player seated, putCard removes from their hand
exactly the cards whose ids occur in cardIds and prepends the moved cards
to usedCards; a requested id absent from the hand is silently skipped and,
when no id matches, usedCards is unchanged; with no local player found the
store is untouched while the PutCard request is still emitted. -/
theorem c1_putCard (store : Store) (gid color : String) (cardIds : List String)
    (g : Game) (lp : PlayerData)
    (hg : store.game = some g) (hlp : store.player = some lp) :
    (jsFind g.players (some lp.id) = none →
      putCard store gid cardIds color = [Act.emit (SocketEmit.putCard gid cardIds color)] ∧
      runTrace store (putCard store gid cardIds color) = store) ∧
    (∀ p, jsFind g.players (some lp.id) = some p →
      ∃ g2, putCard store gid cardIds color
          = [Act.emit (SocketEmit.putCard gid cardIds color), Act.setGameData g2] ∧
        g2.usedCards
          = some (putCardMovedCards cardIds p.handCards ++ Option.getD g.usedCards []) ∧
        ((p.handCards.map CardData.id).Nodup →
          ∀ c, c ∈ putCardMovedCards cardIds p.handCards ↔ c ∈ p.handCards ∧ c.id ∈ cardIds) ∧
        ((∀ cid ∈ cardIds, ∀ c ∈ p.handCards, c.id ≠ cid) →
          g2.usedCards = some (Option.getD g.usedCards [])) ∧
        (∀ c, c ∈ p.handCards.filter (fun hc => !(cardIds.contains hc.id))
          ↔ c ∈ p.handCards ∧ c.id ∉ cardIds) ∧
        (∀ ps, g.players = some ps →
          ∃ ps2, g2.players = some ps2 ∧ ps2.length = ps.length ∧
            (∀ (j : Nat) (q : PlayerData), ps[j]? = some q → q.id = lp.id →
              ps2[j]? = some { q with
                handCards := q.handCards.filter (fun hc => !(cardIds.contains hc.id)) }) ∧
            (∀ (j : Nat) (q : PlayerData), ps[j]? = some q → q.id ≠ lp.id →
              ps2[j]? = some q))) := by
  simp only [putCard, hg, hlp, Option.some_bind, Option.map_some']
  constructor
  · intro hnone
    rw [hnone]
    exact ⟨rfl, rfl⟩
  · intro p hfound
    rw [hfound]
    refine ⟨putCardGame (Option.getD (some g) emptyGame) (some lp.id) cardIds
        (putCardMovedCards cardIds p.handCards), rfl, rfl, ?_, ?_, ?_, ?_⟩
    · intro hnodup c
      exact putCardMovedCards_mem cardIds p.handCards hnodup c
    · intro hmiss
      have hmoved : putCardMovedCards cardIds p.handCards = [] := by
        simp only [putCardMovedCards]
        rw [List.filterMap_eq_nil_iff]
        intro cid hcid
        rw [List.find?_eq_none]
        intro card hcard
        simpa using hmiss cid hcid card hcard
      show some (putCardMovedCards cardIds p.handCards ++ Option.getD g.usedCards [])
        = some (Option.getD g.usedCards [])
      rw [hmoved, List.nil_append]
    · intro c
      rw [List.mem_filter]
      simp
    · intro ps hps
      refine ⟨ps.map (fun player =>
        if some player.id == some lp.id then
          { player with
            handCards := player.handCards.filter (fun hc => !(cardIds.contains hc.id)) }
        else player), ?_, List.length_map _ _, ?_, ?_⟩
      · show Option.map _ g.players = _
        rw [hps]
        rfl
      · intro j q hq hid
        rw [List.getElem?_map, hq]
        simp [hid]
      · intro j q hq hid
        rw [List.getElem?_map, hq]
        simp only [Option.map_some']
        rw [if_neg (by simp [hid])]

/-- Witness for C1 at the sample store, matching the end-to-end example of
the spec: playing card "c1" empties the local hand and prepends the card. -/
theorem c1_putCard_witness :
    ∃ g2, putCard sampleStore "game1" ["c1"] "red"
        = [Act.emit (SocketEmit.putCard "game1" ["c1"] "red"), Act.setGameData g2] ∧
      g2.usedCards
        = some (putCardMovedCards ["c1"] sampleLocal.handCards
            ++ Option.getD sampleGame.usedCards []) ∧
      ((sampleLocal.handCards.map CardData.id).Nodup →
        ∀ c, c ∈ putCardMovedCards ["c1"] sampleLocal.handCards
          ↔ c ∈ sampleLocal.handCards ∧ c.id ∈ ["c1"]) ∧
      ((∀ cid ∈ ["c1"], ∀ c ∈ sampleLocal.handCards, c.id ≠ cid) →
        g2.usedCards = some (Option.getD sampleGame.usedCards [])) ∧
      (∀ c, c ∈ sampleLocal.handCards.filter (fun hc => !((["c1"] : List String).contains hc.id))
        ↔ c ∈ sampleLocal.handCards ∧ c.id ∉ (["c1"] : List String)) ∧
      (∀ ps, sampleGame.players = some ps →
        ∃ ps2, g2.players = some ps2 ∧ ps2.length = ps.length ∧
          (∀ (j : Nat) (q : PlayerData), ps[j]? = some q → q.id = sampleLocal.id →
            ps2[j]? = some { q with
              handCards := q.handCards.filter (fun hc => !((["c1"] : List String).contains hc.id)) }) ∧
          (∀ (j : Nat) (q : PlayerData), ps[j]? = some q → q.id ≠ sampleLocal.id →
            ps2[j]? = some q)) :=
  (c1_putCard sampleStore "game1" "red" ["c1"] sampleGame sampleLocal rfl rfl).2
    sampleLocal (by decide)

/-- With the local player found, the putCard trace is the emission followed
by the optimistic game write. -/
theorem putCard_found_trace (store : Store) (gid color : String) (cardIds : List String)
    (g : Game) (lp p : PlayerData)
    (hg : store.game = some g) (hlp : store.player = some lp)
    (hfound : jsFind g.players (some lp.id) = some p) :
    putCard store gid cardIds color
      = [Act.emit (SocketEmit.putCard gid cardIds color),
         Act.setGameData (putCardGame g (some lp.id) cardIds
           (putCardMovedCards cardIds p.handCards))] := by
  simp only [putCard, hg, hlp, Option.some_bind, Option.map_some']
  rw [hfound]
  rfl

/-- C9: the cards putCard prepends to usedCards appear in the order their
ids occur in cardIds, followed by the previous usedCards unchanged. -/
theorem c9_putCard_order (store : Store) (gid color : String) (cardIds : List String)
    (g : Game) (lp p : PlayerData)
    (hg : store.game = some g) (hlp : store.player = some lp)
    (hfound : jsFind g.players (some lp.id) = some p) :
    ∃ g2, putCard store gid cardIds color
        = [Act.emit (SocketEmit.putCard gid cardIds color), Act.setGameData g2] ∧
      g2.usedCards
        = some (putCardMovedCards cardIds p.handCards ++ Option.getD g.usedCards []) ∧
      (putCardMovedCards cardIds p.handCards).map CardData.id
        = cardIds.filter (fun cid => p.handCards.any (fun card => card.id == cid)) :=
  ⟨putCardGame g (some lp.id) cardIds (putCardMovedCards cardIds p.handCards),
   putCard_found_trace store gid color cardIds g lp p hg hlp hfound,
   rfl,
   putCardMovedCards_map_id cardIds p.handCards⟩

/-- C4: with a game loaded and the local player seated, toggleReady flips
the local player's ready flag in the store synchronously — the trace holds
no awaited suspension point, so the mutation precedes any response. -/
theorem c4_toggleReady (store : Store) (gid : String) (g : Game) (ps : List PlayerData)
    (lp : PlayerData) (hg : store.game = some g) (hps : g.players = some ps)
    (hlp : store.player = some lp) :
    Act.awaitResponse ∉ toggleReady store gid ∧
    ∃ g2 ps2,
      toggleReady store gid = [Act.emit (SocketEmit.toggleReady gid), Act.setGameData g2] ∧
      (runTrace store (toggleReady store gid)).game = some g2 ∧
      g2.players = some ps2 ∧ ps2.length = ps.length ∧
      (∀ (j : Nat) (q : PlayerData), ps[j]? = some q → q.id = lp.id →
        ps2[j]? = some { q with ready := !q.ready }) := by
  refine ⟨by simp [toggleReady], ?_⟩
  refine ⟨toggleReadyGame store.game (Option.map PlayerData.id store.player),
    ps.map (fun player =>
      if some player.id == some lp.id then { player with ready := !player.ready }
      else player),
    rfl, rfl, ?_, List.length_map _ _, ?_⟩
  · have hpl : (toggleReadyGame (some g) (some lp.id)).players
        = some ((Option.getD g.players []).map (fun player =>
            if some player.id == some lp.id then { player with ready := !player.ready }
            else player)) := rfl
    rw [hg, hlp, show Option.map PlayerData.id (some lp) = some lp.id from rfl, hpl, hps]
    rfl
  · intro j q hq hid
    rw [List.getElem?_map, hq]
    simp [hid]

/-- Witness for C4 at the sample store. -/
theorem c4_toggleReady_witness :
    Act.awaitResponse ∉ toggleReady sampleStore "game1" ∧
    ∃ g2 ps2,
      toggleReady sampleStore "game1"
        = [Act.emit (SocketEmit.toggleReady "game1"), Act.setGameData g2] ∧
      (runTrace sampleStore (toggleReady sampleStore "game1")).game = some g2 ∧
      g2.players = some ps2 ∧ ps2.length = ([mkSeat "p1", sampleLocal] : List PlayerData).length ∧
      (∀ (j : Nat) (q : PlayerData),
        ([mkSeat "p1", sampleLocal] : List PlayerData)[j]? = some q → q.id = sampleLocal.id →
        ps2[j]? = some { q with ready := !q.ready }) :=
  c4_toggleReady sampleStore "game1" sampleGame [mkSeat "p1", sampleLocal] sampleLocal rfl rfl rfl

/-- C6: each optimistic mutation keeps the game's currentPlayerIndex and
status and every other player's entry (hence their hand cards) unchanged;
toggleReady and toggleOnlineStatus also keep usedCards unchanged. -/
theorem c6_frame (store : Store) (gid color : String) (cardIds : List String)
    (g : Game) (ps : List PlayerData) (lp : PlayerData)
    (hg : store.game = some g) (hps : g.players = some ps) (hlp : store.player = some lp) :
    (∃ g2 ps2, (runTrace store (toggleReady store gid)).game = some g2 ∧
      g2.status = g.status ∧ g2.currentPlayerIndex = g.currentPlayerIndex ∧
      g2.usedCards = g.usedCards ∧ g2.players = some ps2 ∧ ps2.length = ps.length ∧
      (∀ (j : Nat) (q : PlayerData), ps[j]? = some q → q.id ≠ lp.id → ps2[j]? = some q)) ∧
    (∃ g2 ps2, (runTrace store (putCard store gid cardIds color)).game = some g2 ∧
      g2.status = g.status ∧ g2.currentPlayerIndex = g.currentPlayerIndex ∧
      g2.players = some ps2 ∧ ps2.length = ps.length ∧
      (∀ (j : Nat) (q : PlayerData), ps[j]? = some q → q.id ≠ lp.id → ps2[j]? = some q)) ∧
    (∃ g2 ps2,
      (runTrace store (toggleOnlineStatus store gid EmitResponse.resolved).fst).game = some g2 ∧
      g2.status = g.status ∧ g2.currentPlayerIndex = g.currentPlayerIndex ∧
      g2.usedCards = g.usedCards ∧ g2.players = some ps2 ∧ ps2.length = ps.length ∧
      (∀ (j : Nat) (q : PlayerData), ps[j]? = some q → q.id ≠ lp.id → ps2[j]? = some q)) := by
  refine ⟨?_, ?_, ?_⟩
  · refine ⟨toggleReadyGame store.game (Option.map PlayerData.id store.player),
      ps.map (fun player =>
        if some player.id == some lp.id then { player with ready := !player.ready }
        else player), rfl, ?_, ?_, ?_, ?_, List.length_map _ _, ?_⟩
    · rw [hg]; rfl
    · rw [hg]; rfl
    · rw [hg]; rfl
    · have hpl : (toggleReadyGame (some g) (some lp.id)).players
          = some ((Option.getD g.players []).map (fun player =>
              if some player.id == some lp.id then { player with ready := !player.ready }
              else player)) := rfl
      rw [hg, hlp, show Option.map PlayerData.id (some lp) = some lp.id from rfl, hpl, hps]
      rfl
    · intro j q hq hid
      rw [List.getElem?_map, hq]
      simp only [Option.map_some']
      rw [if_neg (by simp [hid])]
  · cases hfind : jsFind g.players (some lp.id) with
    | none =>
      have htr : putCard store gid cardIds color
          = [Act.emit (SocketEmit.putCard gid cardIds color)] := by
        simp only [putCard, hg, hlp, Option.some_bind, Option.map_some']
        rw [hfind]
      rw [htr]
      refine ⟨g, ps, hg, rfl, rfl, hps, rfl, ?_⟩
      intro j q hq hid
      exact hq
    | some p =>
      have htr : putCard store gid cardIds color
          = [Act.emit (SocketEmit.putCard gid cardIds color),
             Act.setGameData (putCardGame g (some lp.id) cardIds
               (putCardMovedCards cardIds p.handCards))] := by
        simp only [putCard, hg, hlp, Option.some_bind, Option.map_some']
        rw [hfind]
        rfl
      rw [htr]
      refine ⟨putCardGame g (some lp.id) cardIds (putCardMovedCards cardIds p.handCards),
        ps.map (fun player =>
          if some player.id == some lp.id then
            { player with
              handCards := player.handCards.filter (fun hc => !(cardIds.contains hc.id)) }
          else player), rfl, rfl, rfl, ?_, List.length_map _ _, ?_⟩
      · show Option.map _ g.players = _
        rw [hps]
        rfl
      · intro j q hq hid
        rw [List.getElem?_map, hq]
        simp only [Option.map_some']
        rw [if_neg (by simp [hid])]
  · refine ⟨toggleOnlineStatusGame store.game (Option.map PlayerData.id store.player),
      ps.map (fun player =>
        if some player.id == some lp.id then { player with status := "online" }
        else player), rfl, ?_, ?_, ?_, ?_, List.length_map _ _, ?_⟩
    · rw [hg]; rfl
    · rw [hg]; rfl
    · rw [hg]; rfl
    · have hpl : (toggleOnlineStatusGame (some g) (some lp.id)).players
          = some ((Option.getD g.players []).map (fun player =>
              if some player.id == some lp.id then { player with status := "online" }
              else player)) := rfl
      rw [hg, hlp, show Option.map PlayerData.id (some lp) = some lp.id from rfl, hpl, hps]
      rfl
    · intro j q hq hid
      rw [List.getElem?_map, hq]
      simp only [Option.map_some']
      rw [if_neg (by simp [hid])]

/-- Witness for C6 at the sample store. -/
theorem c6_frame_witness :
    (∃ g2 ps2, (runTrace sampleStore (toggleReady sampleStore "game1")).game = some g2 ∧
      g2.status = sampleGame.status ∧ g2.currentPlayerIndex = sampleGame.currentPlayerIndex ∧
      g2.usedCards = sampleGame.usedCards ∧ g2.players = some ps2 ∧
      ps2.length = ([mkSeat "p1", sampleLocal] : List PlayerData).length ∧
      (∀ (j : Nat) (q : PlayerData),
        ([mkSeat "p1", sampleLocal] : List PlayerData)[j]? = some q → q.id ≠ sampleLocal.id →
        ps2[j]? = some q)) ∧
    (∃ g2 ps2, (runTrace sampleStore (putCard sampleStore "game1" ["c1"] "red")).game = some g2 ∧
      g2.status = sampleGame.status ∧ g2.currentPlayerIndex = sampleGame.currentPlayerIndex ∧
      g2.players = some ps2 ∧
      ps2.length = ([mkSeat "p1", sampleLocal] : List PlayerData).length ∧
      (∀ (j : Nat) (q : PlayerData),
        ([mkSeat "p1", sampleLocal] : List PlayerData)[j]? = some q → q.id ≠ sampleLocal.id →
        ps2[j]? = some q)) ∧
    (∃ g2 ps2,
      (runTrace sampleStore (toggleOnlineStatus sampleStore "game1" EmitResponse.resolved).fst).game
        = some g2 ∧
      g2.status = sampleGame.status ∧ g2.currentPlayerIndex = sampleGame.currentPlayerIndex ∧
      g2.usedCards = sampleGame.usedCards ∧ g2.players = some ps2 ∧
      ps2.length = ([mkSeat "p1", sampleLocal] : List PlayerData).length ∧
      (∀ (j : Nat) (q : PlayerData),
        ([mkSeat "p1", sampleLocal] : List PlayerData)[j]? = some q → q.id ≠ sampleLocal.id →
        ps2[j]? = some q)) :=
  c6_frame sampleStore "game1" "red" ["c1"] sampleGame [mkSeat "p1", sampleLocal] sampleLocal
    rfl rfl rfl

/-- Witness for C9 at the sample store: the single played card precedes the
previously used cards. -/
theorem c9_putCard_order_witness :
    ∃ g2, putCard sampleStore "game1" ["c1"] "red"
        = [Act.emit (SocketEmit.putCard "game1" ["c1"] "red"), Act.setGameData g2] ∧
      g2.usedCards
        = some (putCardMovedCards ["c1"] sampleLocal.handCards
            ++ Option.getD sampleGame.usedCards []) ∧
      (putCardMovedCards ["c1"] sampleLocal.handCards).map CardData.id
        = (["c1"] : List String).filter
            (fun cid => sampleLocal.handCards.any (fun card => card.id == cid)) :=
  c9_putCard_order sampleStore "game1" "red" ["c1"] sampleGame sampleLocal sampleLocal
    rfl rfl (by decide)

/-- C7: toggleOnlineStatus awaits the ChangePlayerStatus response before
mutating; a rejected request propagates its error and leaves the store
entirely unchanged, while a resolved request mutates only after the
suspension point. -/
theorem c7_toggleOnlineStatus (store : Store) (gid err : String) :
    (toggleOnlineStatus store gid (EmitResponse.rejected err)).snd = some err ∧
    (toggleOnlineStatus store gid (EmitResponse.rejected err)).fst
      = [Act.emit (SocketEmit.changePlayerStatus gid "online"), Act.awaitResponse] ∧
    runTrace store (toggleOnlineStatus store gid (EmitResponse.rejected err)).fst = store ∧
    (toggleOnlineStatus store gid EmitResponse.resolved).fst
      = [Act.emit (SocketEmit.changePlayerStatus gid "online"), Act.awaitResponse,
         Act.setGameData (toggleOnlineStatusGame store.game (Option.map PlayerData.id store.player))] :=
  ⟨rfl, rfl, rfl, rfl⟩

/-- C10: toggleReady is total over every store state — it always emits the
request and writes a game — and with no game loaded the written game has an
empty players sequence and no other field set. -/
theorem c10_toggleReady_no_game (store : Store) (gid : String) :
    toggleReady store gid
      = [Act.emit (SocketEmit.toggleReady gid),
         Act.setGameData (toggleReadyGame store.game (Option.map PlayerData.id store.player))] ∧
    (store.game = none →
      toggleReady store gid
        = [Act.emit (SocketEmit.toggleReady gid),
           Act.setGameData
             { status := none, currentPlayerIndex := none,
               players := some [], usedCards := none }]) := by
  refine ⟨rfl, ?_⟩
  intro hnone
  rw [show toggleReady store gid
      = [Act.emit (SocketEmit.toggleReady gid),
         Act.setGameData (toggleReadyGame store.game (Option.map PlayerData.id store.player))]
    from rfl, hnone]
  rfl

/-- Witness for C10 at a store with no loaded game. -/
theorem c10_toggleReady_no_game_witness :
    toggleReady { game := none, player := some sampleLocal, chats := [] } "game1"
      = [Act.emit (SocketEmit.toggleReady "game1"),
         Act.setGameData
           { status := none, currentPlayerIndex := none,
             players := some [], usedCards := none }] :=
  (c10_toggleReady_no_game { game := none, player := some sampleLocal, chats := [] } "game1").2 rfl

/-- Looking up a chat right after appending to it sees exactly the old
messages extended with the new one. -/
theorem chatLookup_addChatMessageTo (chats : List (String × List String)) (cid msg : String) :
    chatLookup (addChatMessageTo chats cid msg) cid
      = some (Option.getD (chatLookup chats cid) [] ++ [msg]) := by
  induction chats with
  | nil => simp [addChatMessageTo, chatLookup]
  | cons e rest ih =>
    by_cases h : e.fst = cid
    · simp [addChatMessageTo, chatLookup, h]
    · simp only [addChatMessageTo, chatLookup]
      rw [if_neg (by simpa using h)]
      simp only [chatLookup] at ih
      simp [List.find?_cons, h, ih]

/-- C8: each store-mutating subscriber — GameStarted, NewMessage with a
callback supplied, and reconnect — applies its store mutation strictly
before invoking the caller callback, and invokes the callback exactly once
per received event. -/
theorem c8_subscribers (s : Store) (g : Game) (cid msg : String) (p : PlayerData) :
    (∃ pre, onGameStartHandler g = pre ++ [Act.callback] ∧ Act.callback ∉ pre ∧
      (runTrace s pre).game = some g) ∧
    (∃ pre, onNewChatMessageHandler true cid msg = pre ++ [Act.callback] ∧ Act.callback ∉ pre ∧
      chatLookup (runTrace s pre).chats cid
        = some (Option.getD (chatLookup s.chats cid) [] ++ [msg])) ∧
    (∃ pre, onReconnectHandler p = pre ++ [Act.callback] ∧ Act.callback ∉ pre ∧
      (runTrace s pre).player = some p) := by
  refine ⟨⟨[Act.setGameData g], rfl, by simp, rfl⟩,
    ⟨[Act.addChatMessage cid msg], rfl, by simp, ?_⟩,
    ⟨[Act.awaitResponse, Act.setPlayerData p], rfl, by simp, rfl⟩⟩
  exact chatLookup_addChatMessageTo s.chats cid msg
